import Mathlib

/-!
# SpaceLaunchSimulator (src/main.js)

A shallow embedding of the logic of the React component `SpaceLaunchSimulator`:
the voice-command handler, the countdown started by `startCountdown`, the rocket
click handler and the reset handler.

## How the component is modelled

* The React state cells (`isLaunched`, `countdown`, `transcript`,
  `voiceSupported`, `lastCommand`) are the fields of `Store`. A setter call
  `setX(v)` is a record update; the calls of one handler are applied in program
  order, which is what React's batching yields for constant updates.
* `synthRef` records whether `synthRef.current` holds the browser synthesiser;
  `spoken` is the queue of utterances handed to it by `speak`, oldest first.
* `timers` holds the ids of the intervals created by `setInterval` and not yet
  cleared; `nextTimer` is the id the next `setInterval` returns.
* A handler of the component is a closure created by one render: it reads the
  `isLaunched` and `countdown` constants of that render. `Render` holds these
  captured constants and every handler that reads them takes a `Render`.
  Writes go to the `Store`.
* Every event (click, recognition result, interval callback) is processed
  atomically and the component re-renders before the next one.
* `String.prototype.toLowerCase` is the browser's: a recognition result enters
  the development as the lowercased transcript (the constant `transcript` of
  line 26) together with its `isFinal` flag.
* `isListening` and `toggleListening` only start and stop the recogniser; they
  are not part of this development.
-/

namespace SpaceLaunchSimulator

/-! ## Data model -/

/-- Argument of a call of `speak`: a string literal everywhere except in the
interval callback, which passes the number `prev - 1`. -/
inductive Spoken where
  | text (s : String)
  | number (n : Int)
  deriving DecidableEq, Repr

/-- State of the component: the `useState` cells read by the handlers, the
synthesiser reference with the utterances it has received, and the live
intervals. -/
structure Store where
  isLaunched : Bool
  countdown : Int
  transcript : String
  voiceSupported : Bool
  lastCommand : String
  synthRef : Bool
  spoken : List Spoken
  timers : List Nat
  nextTimer : Nat
  deriving DecidableEq, Repr

/-- Constants `isLaunched` and `countdown` captured by the closures of one
render (lines 5-6). -/
structure Render where
  isLaunched : Bool
  countdown : Int
  deriving DecidableEq, Repr

/-- Render that displays store `s`: its closures capture the current values. -/
def renderOf (s : Store) : Render :=
  { isLaunched := s.isLaunched, countdown := s.countdown }

/-- First render of the component: the `useState` initial values
`useState(false)` and `useState(0)`. -/
def firstRender : Render :=
  { isLaunched := false, countdown := 0 }

/-- Store before the mount effect has run: all `useState` initial values, both
refs `null`, no interval. -/
def initialStore : Store :=
  { isLaunched := false, countdown := 0, transcript := "", voiceSupported := false,
    lastCommand := "", synthRef := false, spoken := [], timers := [], nextTimer := 0 }

/-- Mount effect (lines 15-43): `hasRecognition` says whether the window offers
speech recognition, `hasSynthesis` whether it offers `speechSynthesis`. -/
def mountEffect (hasRecognition hasSynthesis : Bool) (s : Store) : Store :=
  let s := if hasRecognition then { s with voiceSupported := true } else s
  if hasSynthesis then { s with synthRef := true } else s

/-- Store once the component is mounted. -/
def mounted (hasRecognition hasSynthesis : Bool) : Store :=
  mountEffect hasRecognition hasSynthesis initialStore

/-! ## Strings -/

/-- Scan of `String.prototype.includes` over the characters of the text:
does `pat` start at some position of the list? -/
def includesChars (pat : List Char) : List Char → Bool
  | [] => pat.isPrefixOf []
  | c :: cs => pat.isPrefixOf (c :: cs) || includesChars pat cs

/-- The JavaScript `s.includes(pat)`. The keywords searched for are ASCII, so
searching the characters finds what searching the code units finds. -/
def includes (s pat : String) : Bool :=
  includesChars pat.data s.data

/-! ## Handlers -/

/-- Lines 45-52: hand the text to the synthesiser when there is one. -/
def speak (text : Spoken) (s : Store) : Store :=
  if s.synthRef then { s with spoken := s.spoken ++ [text] } else s

/-- Lines 101-113: one run of the interval callback of the interval `timer`,
that is, of the updater passed to `setCountdown`; `prev` is the current
countdown. -/
def timerCallback (timer : Nat) (s : Store) : Store :=
  let prev := s.countdown
  if prev ≤ 1 then
    let s := { s with timers := s.timers.filter (fun t => t ≠ timer) }
    let s := { s with isLaunched := true }
    let s := speak (.text "Liftoff! We have liftoff!") s
    { s with countdown := 0 }
  else
    let s := if prev ≤ 5 then speak (.number (prev - 1)) s else s
    { s with countdown := prev - 1 }

/-- Lines 97-115: set the countdown to 10, announce it and create the
interval. -/
def startCountdown (s : Store) : Store :=
  let s := { s with countdown := 10 }
  let s := speak (.text "T minus 10") s
  { s with timers := s.timers ++ [s.nextTimer], nextTimer := s.nextTimer + 1 }

/-- Lines 117-122. -/
def handleRocketClick (r : Render) (s : Store) : Store :=
  if r.isLaunched || decide (r.countdown > 0) then s
  else startCountdown (speak (.text "Launch sequence initiated") s)

/-- Lines 124-129. -/
def handleReset (s : Store) : Store :=
  { s with isLaunched := false, countdown := 0, transcript := "", lastCommand := "" }

/-- Lines 58-65: body of the first branch of `handleVoiceCommand`. -/
def launchBranch (r : Render) (s : Store) : Store :=
  if !r.isLaunched && r.countdown == 0 then
    startCountdown (speak (.text "Initiating launch sequence") s)
  else if r.isLaunched then
    speak (.text "Rocket has already been launched") s
  else
    speak (.text "Launch sequence already in progress") s

/-- Lines 67-68: body of the second branch of `handleVoiceCommand`. -/
def resetBranch (s : Store) : Store :=
  speak (.text "Mission reset. Ready for launch") (handleReset s)

/-- Lines 70-76: body of the third branch of `handleVoiceCommand`. -/
def statusBranch (r : Render) (s : Store) : Store :=
  if r.isLaunched then
    speak (.text "Mission successful. Rocket is in orbit") s
  else if r.countdown > 0 then
    speak (.text ("Launch sequence in progress. T minus " ++ toString r.countdown ++ " seconds")) s
  else
    speak (.text "Rocket is ready for launch. Say launch to begin countdown") s

/-- Line 78: body of the last branch of `handleVoiceCommand`. -/
def unknownBranch (s : Store) : Store :=
  speak (.text "Command not recognized. Try saying launch, reset, or status") s

/-- Line 55. -/
def setLastCommand (command : String) (s : Store) : Store :=
  { s with lastCommand := command }

/-- Lines 54-80, for the closure of render `r`. -/
def handleVoiceCommand (r : Render) (command : String) (s : Store) : Store :=
  let s := setLastCommand command s
  if includes command "launch" || includes command "blast off" || includes command "take off" then
    launchBranch r s
  else if includes command "reset" || includes command "restart" then
    resetBranch s
  else if includes command "status" || includes command "report" then
    statusBranch r s
  else
    unknownBranch s

/-- Lines 24-32: the `onresult` handler. It is created by the mount effect,
whose dependency list is empty, so the `handleVoiceCommand` it calls is the one
of the first render. The handler reads two values of its event: `transcript`
is the constant of line 26, the value the browser computes as
`event.results[current][0].transcript.toLowerCase()`, and `isFinal` is
`event.results[current].isFinal`. -/
def onresult (transcript : String) (isFinal : Bool) (s : Store) : Store :=
  let s := { s with transcript := transcript }
  if isFinal then handleVoiceCommand firstRender transcript s else s

/-! ## Events -/

/-- Events the browser delivers to the component. A recognition result is
given by the two values `onresult` reads from it: the lowercased transcript of
line 26 and the `isFinal` flag. -/
inductive Event where
  | rocketClick
  | resetClick
  | result (transcript : String) (isFinal : Bool)
  | tick (timer : Nat)
  deriving DecidableEq, Repr

/-- One event. The rocket's `onClick` is the `handleRocketClick` of the current
render; the Reset button is disabled while `countdown > 0` (line 207); the
recogniser exists only when recognition is supported; an interval fires only
while it is live. -/
def step (e : Event) (s : Store) : Store :=
  match e with
  | .rocketClick => handleRocketClick (renderOf s) s
  | .resetClick => if s.countdown > 0 then s else handleReset s
  | .result transcript isFinal =>
    if s.voiceSupported then onresult transcript isFinal s else s
  | .tick timer => if timer ∈ s.timers then timerCallback timer s else s

/-- Events processed one after the other. -/
def run (es : List Event) (s : Store) : Store :=
  es.foldl (fun s e => step e s) s

/-- Stores visited while the events are processed, one per event. -/
def trace : List Event → Store → List Store
  | [], _ => []
  | e :: es, s => step e s :: trace es (step e s)

/-- Utterances handed to the synthesiser between store `s` and the later store
`s'`. -/
def announced (s s' : Store) : List Spoken :=
  s'.spoken.drop s.spoken.length

/-! ## Vocabulary of the claims -/

/-- Text `t` contains the keyword `k`: `k` occurs in `t` as a contiguous run of
characters, that is, `t` is `pre ++ k ++ post` for some `pre` and `post`. -/
def Contains (t k : String) : Prop :=
  k.data <:+: t.data

instance instDecidableContains (t k : String) : Decidable (Contains t k) :=
  inferInstanceAs (Decidable (k.data <:+: t.data))

/-- Text holds a keyword of the launch family. -/
def HasLaunch (t : String) : Prop :=
  Contains t "launch" ∨ Contains t "blast off" ∨ Contains t "take off"

/-- Text holds a keyword of the reset family. -/
def HasReset (t : String) : Prop :=
  Contains t "reset" ∨ Contains t "restart"

/-- Text holds a keyword of the status family. -/
def HasStatus (t : String) : Prop :=
  Contains t "status" ∨ Contains t "report"

instance instDecidableHasLaunch (t : String) : Decidable (HasLaunch t) :=
  inferInstanceAs (Decidable (_ ∨ _ ∨ _))

instance instDecidableHasReset (t : String) : Decidable (HasReset t) :=
  inferInstanceAs (Decidable (_ ∨ _))

instance instDecidableHasStatus (t : String) : Decidable (HasStatus t) :=
  inferInstanceAs (Decidable (_ ∨ _))

/-- On text `t` the handler runs its launch branch, whatever the closure and
the store. -/
def TakesLaunch (t : String) : Prop :=
  ∀ r s, handleVoiceCommand r t s = launchBranch r (setLastCommand t s)

/-- On text `t` the handler runs its reset branch. -/
def TakesReset (t : String) : Prop :=
  ∀ r s, handleVoiceCommand r t s = resetBranch (setLastCommand t s)

/-- On text `t` the handler runs its status branch. -/
def TakesStatus (t : String) : Prop :=
  ∀ r s, handleVoiceCommand r t s = statusBranch r (setLastCommand t s)

/-- On text `t` the handler runs its last branch. -/
def TakesUnknown (t : String) : Prop :=
  ∀ r s, handleVoiceCommand r t s = unknownBranch (setLastCommand t s)

/-- Mission state of a store: the pair the claims call Idle `(false, 0)`,
CountingDown(r) `(false, r)` and Launched `(true, 0)`. -/
def mission (s : Store) : Bool × Int :=
  (s.isLaunched, s.countdown)

/-- Stores the mounted component can be in: those some sequence of events leads
to. -/
def Reachable (s : Store) : Prop :=
  ∃ (hasRecognition hasSynthesis : Bool) (es : List Event),
    s = run es (mounted hasRecognition hasSynthesis)

/-! ## Substring search -/

theorem includesChars_iff (pat l : List Char) :
    includesChars pat l = true ↔ pat <:+: l := by
  induction l with
  | nil => simp [includesChars]
  | cons c cs ih => simp [includesChars, List.infix_cons_iff, ih]

theorem includes_iff (t k : String) : includes t k = true ↔ Contains t k := by
  unfold includes Contains
  exact includesChars_iff k.data t.data

theorem contains_iff_append (t k : String) :
    Contains t k ↔ ∃ pre post : List Char, t.data = pre ++ k.data ++ post := by
  constructor
  · rintro ⟨pre, post, h⟩
    exact ⟨pre, post, h.symm⟩
  · rintro ⟨pre, post, h⟩
    exact ⟨pre, post, h.symm⟩

theorem includes_false_iff (t k : String) : includes t k = false ↔ ¬ Contains t k := by
  rw [← includes_iff]
  cases includes t k <;> simp

theorem launchCond_iff (t : String) :
    (includes t "launch" || includes t "blast off" || includes t "take off") = true
      ↔ HasLaunch t := by
  simp only [Bool.or_eq_true, includes_iff, HasLaunch, or_assoc]

theorem resetCond_iff (t : String) :
    (includes t "reset" || includes t "restart") = true ↔ HasReset t := by
  simp only [Bool.or_eq_true, includes_iff, HasReset]

theorem statusCond_iff (t : String) :
    (includes t "status" || includes t "report") = true ↔ HasStatus t := by
  simp only [Bool.or_eq_true, includes_iff, HasStatus]

/-! ## Which branch a command takes -/

theorem handleVoiceCommand_of_launch (r : Render) (t : String) (s : Store) (h : HasLaunch t) :
    handleVoiceCommand r t s = launchBranch r (setLastCommand t s) := by
  unfold handleVoiceCommand
  simp only [(launchCond_iff t).2 h, if_true]

theorem handleVoiceCommand_of_reset (r : Render) (t : String) (s : Store)
    (hl : ¬ HasLaunch t) (h : HasReset t) :
    handleVoiceCommand r t s = resetBranch (setLastCommand t s) := by
  have h1 : (includes t "launch" || includes t "blast off" || includes t "take off") = false := by
    simpa [← launchCond_iff] using hl
  unfold handleVoiceCommand
  simp only [h1, (resetCond_iff t).2 h, if_true, Bool.false_eq_true, if_false]

theorem handleVoiceCommand_of_status (r : Render) (t : String) (s : Store)
    (hl : ¬ HasLaunch t) (hr : ¬ HasReset t) (h : HasStatus t) :
    handleVoiceCommand r t s = statusBranch r (setLastCommand t s) := by
  have h1 : (includes t "launch" || includes t "blast off" || includes t "take off") = false := by
    simpa [← launchCond_iff] using hl
  have h2 : (includes t "reset" || includes t "restart") = false := by
    simpa [← resetCond_iff] using hr
  unfold handleVoiceCommand
  simp only [h1, h2, (statusCond_iff t).2 h, if_true, Bool.false_eq_true, if_false]

theorem handleVoiceCommand_of_unknown (r : Render) (t : String) (s : Store)
    (hl : ¬ HasLaunch t) (hr : ¬ HasReset t) (hst : ¬ HasStatus t) :
    handleVoiceCommand r t s = unknownBranch (setLastCommand t s) := by
  have h1 : (includes t "launch" || includes t "blast off" || includes t "take off") = false := by
    simpa [← launchCond_iff] using hl
  have h2 : (includes t "reset" || includes t "restart") = false := by
    simpa [← resetCond_iff] using hr
  have h3 : (includes t "status" || includes t "report") = false := by
    simpa [← statusCond_iff] using hst
  unfold handleVoiceCommand
  simp only [h1, h2, h3, Bool.false_eq_true, if_false]

theorem launchBranch_spoken_mounted (t : String) :
    (launchBranch firstRender (setLastCommand t (mounted true true))).spoken
      = [.text "Initiating launch sequence", .text "T minus 10"] := rfl

theorem resetBranch_spoken_mounted (t : String) :
    (resetBranch (setLastCommand t (mounted true true))).spoken
      = [.text "Mission reset. Ready for launch"] := rfl

theorem statusBranch_spoken_mounted (t : String) :
    (statusBranch firstRender (setLastCommand t (mounted true true))).spoken
      = [.text "Rocket is ready for launch. Say launch to begin countdown"] := rfl

theorem unknownBranch_spoken_mounted (t : String) :
    (unknownBranch (setLastCommand t (mounted true true))).spoken
      = [.text "Command not recognized. Try saying launch, reset, or status"] := rfl

theorem takesLaunch_iff (t : String) : TakesLaunch t ↔ HasLaunch t := by
  constructor
  · intro h
    by_contra hl
    have e := congrArg Store.spoken (h firstRender (mounted true true))
    rw [launchBranch_spoken_mounted] at e
    by_cases hr : HasReset t
    · rw [handleVoiceCommand_of_reset _ _ _ hl hr, resetBranch_spoken_mounted] at e
      exact absurd e (by decide)
    · by_cases hst : HasStatus t
      · rw [handleVoiceCommand_of_status _ _ _ hl hr hst, statusBranch_spoken_mounted] at e
        exact absurd e (by decide)
      · rw [handleVoiceCommand_of_unknown _ _ _ hl hr hst, unknownBranch_spoken_mounted] at e
        exact absurd e (by decide)
  · intro h r s
    exact handleVoiceCommand_of_launch r t s h

theorem takesReset_iff (t : String) : TakesReset t ↔ ¬ HasLaunch t ∧ HasReset t := by
  constructor
  · intro h
    have e := congrArg Store.spoken (h firstRender (mounted true true))
    rw [resetBranch_spoken_mounted] at e
    by_cases hl : HasLaunch t
    · rw [handleVoiceCommand_of_launch _ _ _ hl, launchBranch_spoken_mounted] at e
      exact absurd e (by decide)
    · refine ⟨hl, ?_⟩
      by_contra hr
      by_cases hst : HasStatus t
      · rw [handleVoiceCommand_of_status _ _ _ hl hr hst, statusBranch_spoken_mounted] at e
        exact absurd e (by decide)
      · rw [handleVoiceCommand_of_unknown _ _ _ hl hr hst, unknownBranch_spoken_mounted] at e
        exact absurd e (by decide)
  · rintro ⟨hl, hr⟩ r s
    exact handleVoiceCommand_of_reset r t s hl hr

theorem takesStatus_iff (t : String) :
    TakesStatus t ↔ ¬ HasLaunch t ∧ ¬ HasReset t ∧ HasStatus t := by
  constructor
  · intro h
    have e := congrArg Store.spoken (h firstRender (mounted true true))
    rw [statusBranch_spoken_mounted] at e
    by_cases hl : HasLaunch t
    · rw [handleVoiceCommand_of_launch _ _ _ hl, launchBranch_spoken_mounted] at e
      exact absurd e (by decide)
    · by_cases hr : HasReset t
      · rw [handleVoiceCommand_of_reset _ _ _ hl hr, resetBranch_spoken_mounted] at e
        exact absurd e (by decide)
      · refine ⟨hl, hr, ?_⟩
        by_contra hst
        rw [handleVoiceCommand_of_unknown _ _ _ hl hr hst, unknownBranch_spoken_mounted] at e
        exact absurd e (by decide)
  · rintro ⟨hl, hr, hst⟩ r s
    exact handleVoiceCommand_of_status r t s hl hr hst

theorem takesUnknown_iff (t : String) :
    TakesUnknown t ↔ ¬ HasLaunch t ∧ ¬ HasReset t ∧ ¬ HasStatus t := by
  constructor
  · intro h
    have e := congrArg Store.spoken (h firstRender (mounted true true))
    rw [unknownBranch_spoken_mounted] at e
    by_cases hl : HasLaunch t
    · rw [handleVoiceCommand_of_launch _ _ _ hl, launchBranch_spoken_mounted] at e
      exact absurd e (by decide)
    · by_cases hr : HasReset t
      · rw [handleVoiceCommand_of_reset _ _ _ hl hr, resetBranch_spoken_mounted] at e
        exact absurd e (by decide)
      · refine ⟨hl, hr, ?_⟩
        intro hst
        rw [handleVoiceCommand_of_status _ _ _ hl hr hst, statusBranch_spoken_mounted] at e
        exact absurd e (by decide)
  · rintro ⟨hl, hr, hst⟩ r s
    exact handleVoiceCommand_of_unknown r t s hl hr hst

/-- C1. Command interpretation is a fixed-priority substring match. For every
text `t` the handler runs its launch branch exactly when `t` contains "launch",
"blast off" or "take off"; otherwise its reset branch exactly when `t` contains
"reset" or "restart"; otherwise its status branch exactly when `t` contains
"status" or "report"; otherwise its last (unknown) branch. "reset the launch"
and "let's launch now" are Launch, "please restart" is Reset, "give me a status
report" is Status and "banana" is Unknown. -/
theorem handleVoiceCommand_fixed_priority (t : String) :
    (TakesLaunch t ↔ HasLaunch t) ∧
    (TakesReset t ↔ ¬ HasLaunch t ∧ HasReset t) ∧
    (TakesStatus t ↔ ¬ HasLaunch t ∧ ¬ HasReset t ∧ HasStatus t) ∧
    (TakesUnknown t ↔ ¬ HasLaunch t ∧ ¬ HasReset t ∧ ¬ HasStatus t) ∧
    TakesLaunch "reset the launch" ∧
    TakesLaunch "let's launch now" ∧
    TakesReset "please restart" ∧
    TakesStatus "give me a status report" ∧
    TakesUnknown "banana" := by
  refine ⟨takesLaunch_iff t, takesReset_iff t, takesStatus_iff t, takesUnknown_iff t,
    ?_, ?_, ?_, ?_, ?_⟩
  · exact (takesLaunch_iff _).2 ((launchCond_iff _).1 (by decide))
  · exact (takesLaunch_iff _).2 ((launchCond_iff _).1 (by decide))
  · refine (takesReset_iff _).2 ⟨?_, (resetCond_iff _).1 (by decide)⟩
    rw [← launchCond_iff]; decide
  · refine (takesStatus_iff _).2 ⟨?_, ?_, (statusCond_iff _).1 (by decide)⟩
    · rw [← launchCond_iff]; decide
    · rw [← resetCond_iff]; decide
  · refine (takesUnknown_iff _).2 ⟨?_, ?_, ?_⟩
    · rw [← launchCond_iff]; decide
    · rw [← resetCond_iff]; decide
    · rw [← statusCond_iff]; decide

/-! ## The launch intent -/

theorem handleVoiceCommand_launch_idle (t : String) (s : Store)
    (ht : HasLaunch t) (hs : s.synthRef = true)
    (h1 : s.isLaunched = false) (h2 : s.countdown = 0) :
    handleVoiceCommand (renderOf s) t s =
      { s with
        lastCommand := t
        countdown := 10
        spoken := s.spoken ++ [.text "Initiating launch sequence", .text "T minus 10"]
        timers := s.timers ++ [s.nextTimer]
        nextTimer := s.nextTimer + 1 } := by
  rw [handleVoiceCommand_of_launch _ _ _ ht]
  simp [launchBranch, renderOf, setLastCommand, startCountdown, speak, hs, h1, h2]

/-- What lines 57-65 are written to do. Were the handler the closure of the
render of the current store (and the synthesiser present), a text with a launch
keyword would start the countdown in Idle, and in CountingDown(r) or Launched
would only store the command and announce "Launch sequence already in progress"
or "Rocket has already been launched". The recogniser, the only caller, runs
the closure of the first render instead: see `voice_launch_any_state`. -/
theorem launchBranch_of_current_render (t : String) (s : Store)
    (ht : HasLaunch t) (hs : s.synthRef = true) :
    (s.isLaunched = false → s.countdown = 0 →
      handleVoiceCommand (renderOf s) t s =
        { s with
          lastCommand := t
          countdown := 10
          spoken := s.spoken ++ [.text "Initiating launch sequence", .text "T minus 10"]
          timers := s.timers ++ [s.nextTimer]
          nextTimer := s.nextTimer + 1 }) ∧
    (∀ r : Int, 1 ≤ r → r ≤ 10 → s.isLaunched = false → s.countdown = r →
      handleVoiceCommand (renderOf s) t s =
        { s with
          lastCommand := t
          spoken := s.spoken ++ [.text "Launch sequence already in progress"] }) ∧
    (s.isLaunched = true → s.countdown = 0 →
      handleVoiceCommand (renderOf s) t s =
        { s with
          lastCommand := t
          spoken := s.spoken ++ [.text "Rocket has already been launched"] }) := by
  obtain ⟨il, cd, tr, vs, lc, sy, sp, tm, nt⟩ := s
  simp only at hs
  subst hs
  rw [handleVoiceCommand_of_launch _ _ _ ht]
  refine ⟨?_, ?_, ?_⟩
  · intro h1 h2
    simp only at h1 h2
    subst h1 h2
    simp [launchBranch, renderOf, setLastCommand, startCountdown, speak]
  · intro r hr1 hr2 h1 h2
    simp only at h1 h2
    subst h1 h2
    have hne : ¬ cd = 0 := by omega
    simp [launchBranch, renderOf, setLastCommand, speak, hne]
  · intro h1 h2
    simp only at h1 h2
    subst h1 h2
    simp [launchBranch, renderOf, setLastCommand, speak]

/-! ## The countdown -/

theorem announced_append (s s' : Store) (l : List Spoken) (h : s'.spoken = s.spoken ++ l) :
    announced s s' = l := by
  simp [announced, h]

/-- C3. With the synthesiser present and the rocket not launched, one run of
the interval callback in CountingDown(r), 2 <= r <= 10, gives CountingDown(r-1)
and announces the number r-1 exactly when r-1 <= 4; in CountingDown(1) it gives
Launched with countdown 0, clears its interval and announces only the liftoff
sentence. From Idle, a Launch intent followed by ten ticks of the interval it
created visits CountingDown(9), ..., CountingDown(1), Launched in that order,
and the ticks announce exactly 4, 3, 2, 1 and the liftoff sentence. -/
theorem tick_countdown (s : Store) (timer : Nat)
    (hs : s.synthRef = true) (hl : s.isLaunched = false) :
    (∀ r : Int, 2 ≤ r → r ≤ 10 → s.countdown = r →
      timerCallback timer s =
        { s with
          countdown := r - 1
          spoken := s.spoken ++ (if r - 1 ≤ 4 then [.number (r - 1)] else []) }) ∧
    (s.countdown = 1 →
      timerCallback timer s =
        { s with
          isLaunched := true
          countdown := 0
          timers := s.timers.filter (fun t => t ≠ timer)
          spoken := s.spoken ++ [.text "Liftoff! We have liftoff!"] }) ∧
    (s.countdown = 0 → ∀ t : String, HasLaunch t →
      (trace (List.replicate 10 (Event.tick s.nextTimer))
          (handleVoiceCommand (renderOf s) t s)).map mission
        = [(false, 9), (false, 8), (false, 7), (false, 6), (false, 5),
           (false, 4), (false, 3), (false, 2), (false, 1), (true, 0)] ∧
      announced (handleVoiceCommand (renderOf s) t s)
          (run (List.replicate 10 (Event.tick s.nextTimer))
            (handleVoiceCommand (renderOf s) t s))
        = [.number 4, .number 3, .number 2, .number 1,
           .text "Liftoff! We have liftoff!"]) := by
  obtain ⟨il, cd, tr, vs, lc, sy, sp, tm, nt⟩ := s
  simp only at hs hl
  subst hs hl
  refine ⟨?_, ?_, ?_⟩
  · intro r hr1 hr2 h
    simp only at h
    subst h
    have h1 : ¬ cd ≤ 1 := by omega
    by_cases h5 : cd ≤ 5
    · have h4 : cd - 1 ≤ 4 := by omega
      simp [timerCallback, speak, h1, h5, h4]
    · have h4 : ¬ cd - 1 ≤ 4 := by omega
      simp [timerCallback, h1, h5, h4]
  · intro h
    simp only at h
    subst h
    simp [timerCallback, speak]
  · intro h t ht
    simp only at h
    subst h
    rw [handleVoiceCommand_launch_idle t _ ht rfl rfl rfl]
    constructor
    · simp [trace, step, timerCallback, speak, mission, List.replicate]
    · apply announced_append
      simp [run, step, timerCallback, speak, List.replicate]

/-- Witness of C3: ticks of the interval 0 on the mounted component in
CountingDown(5), CountingDown(1), and the whole countdown after "launch". -/
theorem tick_countdown_witness :
    timerCallback 0 { mounted true true with countdown := 5, timers := [0] } =
      { mounted true true with countdown := 4, timers := [0], spoken := [.number 4] } ∧
    timerCallback 0 { mounted true true with countdown := 1, timers := [0] } =
      { mounted true true with
        isLaunched := true
        timers := []
        spoken := [.text "Liftoff! We have liftoff!"] } ∧
    (trace (List.replicate 10 (Event.tick 0))
        (handleVoiceCommand (renderOf (mounted true true)) "launch" (mounted true true))).map
        mission
      = [(false, 9), (false, 8), (false, 7), (false, 6), (false, 5),
         (false, 4), (false, 3), (false, 2), (false, 1), (true, 0)] :=
  ⟨(tick_countdown { mounted true true with countdown := 5, timers := [0] } 0 rfl rfl).1
      5 (by decide) (by decide) rfl,
   (tick_countdown { mounted true true with countdown := 1, timers := [0] } 0 rfl rfl).2.1 rfl,
   ((tick_countdown (mounted true true) 0 rfl rfl).2.2 rfl "launch"
      ((launchCond_iff _).1 (by decide))).1⟩

/-! ## The reset intent -/

/-- C5. A Reset intent (a text with a reset keyword and no launch keyword, the
synthesiser being present) returns the component to its initial values from
every store and for every closure: `isLaunched = false`, `countdown = 0`,
`transcript = ""`, `lastCommand = ""` (although the handler first stored the
utterance there), and the only announcement is "Mission reset. Ready for
launch". These four cells equal those of the initial store, and a Launch intent
that follows gives the same mission state, the same announcements and one new
interval, as the first launch on the freshly mounted component does. -/
theorem reset_intent_restores_initial (r : Render) (t : String) (s : Store)
    (hl : ¬ HasLaunch t) (hr : HasReset t) (hs : s.synthRef = true) :
    handleVoiceCommand r t s =
      { s with
        isLaunched := false
        countdown := 0
        transcript := ""
        lastCommand := ""
        spoken := s.spoken ++ [.text "Mission reset. Ready for launch"] } ∧
    (handleVoiceCommand r t s).isLaunched = initialStore.isLaunched ∧
    (handleVoiceCommand r t s).countdown = initialStore.countdown ∧
    (handleVoiceCommand r t s).transcript = initialStore.transcript ∧
    (handleVoiceCommand r t s).lastCommand = initialStore.lastCommand ∧
    (∀ u : String, HasLaunch u → ∀ v : Bool,
      mission (handleVoiceCommand (renderOf (handleVoiceCommand r t s)) u
          (handleVoiceCommand r t s))
        = mission (handleVoiceCommand (renderOf (mounted v true)) u (mounted v true)) ∧
      mission (handleVoiceCommand (renderOf (handleVoiceCommand r t s)) u
          (handleVoiceCommand r t s)) = (false, 10) ∧
      announced (handleVoiceCommand r t s)
          (handleVoiceCommand (renderOf (handleVoiceCommand r t s)) u
            (handleVoiceCommand r t s))
        = announced (mounted v true)
            (handleVoiceCommand (renderOf (mounted v true)) u (mounted v true)) ∧
      announced (handleVoiceCommand r t s)
          (handleVoiceCommand (renderOf (handleVoiceCommand r t s)) u
            (handleVoiceCommand r t s))
        = [.text "Initiating launch sequence", .text "T minus 10"] ∧
      (handleVoiceCommand (renderOf (handleVoiceCommand r t s)) u
          (handleVoiceCommand r t s)).timers = s.timers ++ [s.nextTimer]) := by
  have key : handleVoiceCommand r t s =
      { s with
        isLaunched := false
        countdown := 0
        transcript := ""
        lastCommand := ""
        spoken := s.spoken ++ [.text "Mission reset. Ready for launch"] } := by
    rw [handleVoiceCommand_of_reset _ _ _ hl hr]
    simp [resetBranch, handleReset, setLastCommand, speak, hs]
  refine ⟨key, ?_, ?_, ?_, ?_, ?_⟩
  · rw [key]; rfl
  · rw [key]; rfl
  · rw [key]; rfl
  · rw [key]; rfl
  · intro u hu v
    rw [key]
    have e1 := handleVoiceCommand_launch_idle u
      { s with
        isLaunched := false
        countdown := 0
        transcript := ""
        lastCommand := ""
        spoken := s.spoken ++ [.text "Mission reset. Ready for launch"] } hu hs rfl rfl
    have e2 : ∀ w : Bool, handleVoiceCommand (renderOf (mounted w true)) u (mounted w true) =
        { mounted w true with
          lastCommand := u
          countdown := 10
          spoken := [.text "Initiating launch sequence", .text "T minus 10"]
          timers := [0]
          nextTimer := 1 } := by
      intro w
      cases w
      · exact handleVoiceCommand_launch_idle u (mounted false true) hu rfl rfl rfl
      · exact handleVoiceCommand_launch_idle u (mounted true true) hu rfl rfl rfl
    have a2 : announced (mounted v true)
        (handleVoiceCommand (renderOf (mounted v true)) u (mounted v true))
          = [.text "Initiating launch sequence", .text "T minus 10"] := by
      rw [e2]
      cases v <;> rfl
    have m2 : mission (handleVoiceCommand (renderOf (mounted v true)) u (mounted v true))
        = (false, 10) := by
      rw [e2]
      cases v <;> rfl
    rw [a2, m2, e1]
    exact ⟨rfl, rfl, announced_append _ _ _ rfl, announced_append _ _ _ rfl, rfl⟩

/-- Witness of C5: "please restart" heard after liftoff, the closure being the
one of the first render. -/
theorem reset_intent_restores_initial_witness :
    handleVoiceCommand firstRender "please restart"
        { mounted true true with
          isLaunched := true
          transcript := "please restart"
          lastCommand := "launch"
          nextTimer := 1 } =
      { mounted true true with
        nextTimer := 1
        spoken := [.text "Mission reset. Ready for launch"] } :=
  (reset_intent_restores_initial firstRender "please restart"
    { mounted true true with
      isLaunched := true
      transcript := "please restart"
      lastCommand := "launch"
      nextTimer := 1 }
    (by rw [← launchCond_iff]; decide) ((resetCond_iff _).1 (by decide)) rfl).1

/-! ## The status intent -/

/-- What lines 69-76 are written to do. Were the handler the closure of the
render of the current store (and the synthesiser present), a text with a status
keyword and no launch or reset keyword would store the command and report the
current mission state. The recogniser, the only caller, runs the closure of
the first render instead: see `voice_status_any_state`. -/
theorem statusBranch_of_current_render (t : String) (s : Store)
    (hl : ¬ HasLaunch t) (hr : ¬ HasReset t) (hst : HasStatus t) (hs : s.synthRef = true) :
    (s.isLaunched = false → s.countdown = 0 →
      handleVoiceCommand (renderOf s) t s =
        { s with
          lastCommand := t
          spoken := s.spoken ++
            [.text "Rocket is ready for launch. Say launch to begin countdown"] }) ∧
    (∀ r : Nat, 1 ≤ r → r ≤ 10 → s.isLaunched = false → s.countdown = r →
      handleVoiceCommand (renderOf s) t s =
        { s with
          lastCommand := t
          spoken := s.spoken ++
            [.text ("Launch sequence in progress. T minus " ++ Nat.repr r ++ " seconds")] }) ∧
    (s.isLaunched = true → s.countdown = 0 →
      handleVoiceCommand (renderOf s) t s =
        { s with
          lastCommand := t
          spoken := s.spoken ++ [.text "Mission successful. Rocket is in orbit"] }) := by
  obtain ⟨il, cd, tr, vs, lc, sy, sp, tm, nt⟩ := s
  simp only at hs
  subst hs
  rw [handleVoiceCommand_of_status _ _ _ hl hr hst]
  refine ⟨?_, ?_, ?_⟩
  · intro h1 h2
    simp only at h1 h2
    subst h1 h2
    simp [statusBranch, renderOf, setLastCommand, speak]
  · intro r hr1 hr2 h1 h2
    simp only at h1 h2
    subst h1 h2
    have hpos : (0 : Int) < (r : Int) := by omega
    have hrepr : toString (r : Int) = Nat.repr r := rfl
    simp [statusBranch, renderOf, setLastCommand, speak, hpos, hrepr]
  · intro h1 h2
    simp only at h1 h2
    subst h1 h2
    simp [statusBranch, renderOf, setLastCommand, speak]

/-! ## Unrecognised utterances -/

/-- C8. A text with none of the eight keywords is rejected without a state
change (the synthesiser being present): for every store and every closure the
handler changes nothing but the last command, so `isLaunched`, `countdown` and
the intervals are those of the store, and it announces exactly once "Command
not recognized. Try saying launch, reset, or status"; handling the text again
gives the same store but for one more such announcement. -/
theorem unknown_command_rejected (r r' : Render) (t : String) (s : Store)
    (hl : ¬ HasLaunch t) (hr : ¬ HasReset t) (hst : ¬ HasStatus t)
    (hs : s.synthRef = true) :
    handleVoiceCommand r t s =
      { s with
        lastCommand := t
        spoken := s.spoken ++
          [.text "Command not recognized. Try saying launch, reset, or status"] } ∧
    mission (handleVoiceCommand r t s) = mission s ∧
    (handleVoiceCommand r t s).timers = s.timers ∧
    (handleVoiceCommand r t s).nextTimer = s.nextTimer ∧
    announced s (handleVoiceCommand r t s) =
      [.text "Command not recognized. Try saying launch, reset, or status"] ∧
    mission (handleVoiceCommand r' t (handleVoiceCommand r t s))
      = mission (handleVoiceCommand r t s) ∧
    handleVoiceCommand r' t (handleVoiceCommand r t s) =
      { handleVoiceCommand r t s with
        spoken := (handleVoiceCommand r t s).spoken ++
          [.text "Command not recognized. Try saying launch, reset, or status"] } := by
  have key : ∀ (q : Render) (x : Store), x.synthRef = true → handleVoiceCommand q t x =
      { x with
        lastCommand := t
        spoken := x.spoken ++
          [.text "Command not recognized. Try saying launch, reset, or status"] } := by
    intro q x hx
    rw [handleVoiceCommand_of_unknown _ _ _ hl hr hst]
    simp [unknownBranch, setLastCommand, speak, hx]
  have k1 := key r s hs
  have k2 := key r' (handleVoiceCommand r t s) (by rw [k1]; exact hs)
  refine ⟨k1, ?_, ?_, ?_, ?_, ?_, ?_⟩
  · rw [k1]; rfl
  · rw [k1]
  · rw [k1]
  · exact announced_append _ _ _ (by rw [k1])
  · rw [k2]; rfl
  · rw [k2]
    rw [k1]

/-- Witness of C8: "banana" heard in CountingDown(7). -/
theorem unknown_command_rejected_witness :
    handleVoiceCommand firstRender "banana"
        { mounted true true with countdown := 7, timers := [0] } =
      { mounted true true with
        countdown := 7
        timers := [0]
        lastCommand := "banana"
        spoken := [.text "Command not recognized. Try saying launch, reset, or status"] } :=
  (unknown_command_rejected firstRender firstRender "banana"
    { mounted true true with countdown := 7, timers := [0] }
    (by rw [← launchCond_iff]; decide) (by rw [← resetCond_iff]; decide)
    (by rw [← statusCond_iff]; decide) rfl).1

/-! ## The rocket click -/

/-- C6, as stated, fails on the mounted component in Idle: the click announces
"Launch sequence initiated" then "T minus 10", the launch branch of the voice
handler announces "Initiating launch sequence" then "T minus 10". -/
theorem rocket_click_announcement_differs :
    announced (mounted true true)
        (handleRocketClick (renderOf (mounted true true)) (mounted true true))
      = [.text "Launch sequence initiated", .text "T minus 10"] ∧
    announced (mounted true true)
        (handleVoiceCommand (renderOf (mounted true true)) "launch" (mounted true true))
      = [.text "Initiating launch sequence", .text "T minus 10"] ∧
    announced (mounted true true)
        (handleRocketClick (renderOf (mounted true true)) (mounted true true))
      ≠ announced (mounted true true)
        (handleVoiceCommand (renderOf (mounted true true)) "launch" (mounted true true)) := by
  decide

/-- C6, amended. With the synthesiser present, the rocket click of the current
render in Idle sets the countdown to 10, creates one interval and announces
"Launch sequence initiated" then "T minus 10"; the mission state and the
intervals it leaves are those a Launch intent leaves in Idle. In
CountingDown(r), 1 <= r <= 10, and in Launched the click returns the store
unchanged: no cell changes, no interval is created, nothing is announced. -/
theorem rocket_click_table (s : Store) (hs : s.synthRef = true) :
    (s.isLaunched = false → s.countdown = 0 →
      handleRocketClick (renderOf s) s =
        { s with
          countdown := 10
          spoken := s.spoken ++ [.text "Launch sequence initiated", .text "T minus 10"]
          timers := s.timers ++ [s.nextTimer]
          nextTimer := s.nextTimer + 1 } ∧
      ∀ t : String, HasLaunch t →
        mission (handleRocketClick (renderOf s) s)
          = mission (handleVoiceCommand (renderOf s) t s) ∧
        (handleRocketClick (renderOf s) s).timers
          = (handleVoiceCommand (renderOf s) t s).timers ∧
        (handleRocketClick (renderOf s) s).nextTimer
          = (handleVoiceCommand (renderOf s) t s).nextTimer) ∧
    (∀ r : Int, 1 ≤ r → r ≤ 10 → s.isLaunched = false → s.countdown = r →
      handleRocketClick (renderOf s) s = s) ∧
    (s.isLaunched = true → s.countdown = 0 → handleRocketClick (renderOf s) s = s) := by
  refine ⟨?_, ?_, ?_⟩
  · intro h1 h2
    have key : handleRocketClick (renderOf s) s =
        { s with
          countdown := 10
          spoken := s.spoken ++ [.text "Launch sequence initiated", .text "T minus 10"]
          timers := s.timers ++ [s.nextTimer]
          nextTimer := s.nextTimer + 1 } := by
      simp [handleRocketClick, renderOf, startCountdown, speak, h1, h2, hs]
    refine ⟨key, ?_⟩
    intro t ht
    rw [key, handleVoiceCommand_launch_idle t s ht hs h1 h2]
    exact ⟨rfl, rfl, rfl⟩
  · intro r hr1 hr2 h1 h2
    have hpos : 0 < s.countdown := by omega
    simp [handleRocketClick, renderOf, h1, hpos]
  · intro h1 _
    simp [handleRocketClick, renderOf, h1]

/-- Witness of the amended C6: the click on the mounted component in Idle and
in CountingDown(7). -/
theorem rocket_click_table_witness :
    handleRocketClick (renderOf (mounted true true)) (mounted true true) =
      { mounted true true with
        countdown := 10
        spoken := [.text "Launch sequence initiated", .text "T minus 10"]
        timers := [0]
        nextTimer := 1 } ∧
    handleRocketClick (renderOf { mounted true true with countdown := 7, timers := [0] })
        { mounted true true with countdown := 7, timers := [0] }
      = { mounted true true with countdown := 7, timers := [0] } :=
  ⟨((rocket_click_table (mounted true true) rfl).1 rfl rfl).1,
   (rocket_click_table { mounted true true with countdown := 7, timers := [0] } rfl).2.1
      7 (by decide) (by decide) rfl rfl⟩

/-! ## Reset during the countdown -/

/-- C4 at the failing input: rocket click, then "reset" heard as a final
result, then the next callback of interval 0. After the reset the store is Idle
but interval 0 is still live; its callback sets `isLaunched`, clears the
interval and announces the liftoff sentence. -/
theorem reset_leaves_interval_live :
    mission (run [.rocketClick, .result "reset" true] (mounted true true)) = (false, 0) ∧
    (run [.rocketClick, .result "reset" true] (mounted true true)).timers = [0] ∧
    mission (run [.rocketClick, .result "reset" true, .tick 0] (mounted true true))
      = (true, 0) ∧
    announced (run [.rocketClick, .result "reset" true] (mounted true true))
        (run [.rocketClick, .result "reset" true, .tick 0] (mounted true true))
      = [.text "Liftoff! We have liftoff!"] := by
  decide

/-! ## The recogniser callback -/

/-- C9 at the failing input: "launch" heard as a final result in
CountingDown(10), after a rocket click. The handler of the current render would
leave the countdown and its interval alone and announce "Launch sequence
already in progress"; the callback, which runs the handler of the first
render, announces "Initiating launch sequence" then "T minus 10" and creates a
second interval. -/
theorem onresult_runs_first_render_handler :
    mission (step .rocketClick (mounted true true)) = (false, 10) ∧
    step (.result "launch" true) (step .rocketClick (mounted true true))
      = handleVoiceCommand firstRender "launch"
          { step .rocketClick (mounted true true) with transcript := "launch" } ∧
    step (.result "launch" true) (step .rocketClick (mounted true true))
      ≠ handleVoiceCommand (renderOf (step .rocketClick (mounted true true))) "launch"
          { step .rocketClick (mounted true true) with transcript := "launch" } ∧
    announced (step .rocketClick (mounted true true))
        (step (.result "launch" true) (step .rocketClick (mounted true true)))
      = [.text "Initiating launch sequence", .text "T minus 10"] ∧
    (step (.result "launch" true) (step .rocketClick (mounted true true))).timers = [0, 1] ∧
    announced (step .rocketClick (mounted true true))
        (handleVoiceCommand (renderOf (step .rocketClick (mounted true true))) "launch"
          { step .rocketClick (mounted true true) with transcript := "launch" })
      = [.text "Launch sequence already in progress"] ∧
    (handleVoiceCommand (renderOf (step .rocketClick (mounted true true))) "launch"
        { step .rocketClick (mounted true true) with transcript := "launch" }).timers = [0] := by
  decide

/-- A final result with a launch keyword, in every store of a component with
recogniser and synthesiser: the first-render closure sees Idle, so the
countdown is set to 10, an interval is created and the two launch sentences are
announced, whatever the mission state. -/
theorem voice_launch_any_state (t : String) (s : Store) (ht : HasLaunch t)
    (hv : s.voiceSupported = true) (hs : s.synthRef = true) :
    step (.result t true) s =
      { s with
        transcript := t
        lastCommand := t
        countdown := 10
        spoken := s.spoken ++ [.text "Initiating launch sequence", .text "T minus 10"]
        timers := s.timers ++ [s.nextTimer]
        nextTimer := s.nextTimer + 1 } := by
  simp only [step, hv, if_true, onresult]
  rw [handleVoiceCommand_of_launch _ _ _ ht]
  simp [launchBranch, firstRender, setLastCommand, startCountdown, speak, hs]

/-- A final result with a status keyword and no launch or reset keyword, in
every store of a component with recogniser and synthesiser: the first-render
closure sees Idle, so the announcement is the Idle sentence, whatever the
mission state. -/
theorem voice_status_any_state (t : String) (s : Store)
    (hl : ¬ HasLaunch t) (hr : ¬ HasReset t) (hst : HasStatus t)
    (hv : s.voiceSupported = true) (hs : s.synthRef = true) :
    step (.result t true) s =
      { s with
        transcript := t
        lastCommand := t
        spoken := s.spoken ++
          [.text "Rocket is ready for launch. Say launch to begin countdown"] } := by
  simp only [step, hv, if_true, onresult]
  rw [handleVoiceCommand_of_status _ _ _ hl hr hst]
  simp [statusBranch, firstRender, setLastCommand, speak, hs]

/-- C2 at the failing inputs. In CountingDown(7) (rocket click, three callbacks
of interval 0) the final result "launch" sets the countdown back to 10, creates
a second interval and announces "Initiating launch sequence" then "T minus 10",
not "Launch sequence already in progress". In Launched (rocket click, ten
callbacks) the final result "launch" announces the same two sentences, not
"Rocket has already been launched", and creates an interval. -/
theorem voice_launch_restarts_countdown :
    mission (run [.rocketClick, .tick 0, .tick 0, .tick 0] (mounted true true)) = (false, 7) ∧
    (run [.rocketClick, .tick 0, .tick 0, .tick 0] (mounted true true)).timers = [0] ∧
    mission (run [.rocketClick, .tick 0, .tick 0, .tick 0, .result "launch" true]
      (mounted true true)) = (false, 10) ∧
    (run [.rocketClick, .tick 0, .tick 0, .tick 0, .result "launch" true]
      (mounted true true)).timers = [0, 1] ∧
    announced (run [.rocketClick, .tick 0, .tick 0, .tick 0] (mounted true true))
        (run [.rocketClick, .tick 0, .tick 0, .tick 0, .result "launch" true]
          (mounted true true))
      = [.text "Initiating launch sequence", .text "T minus 10"] ∧
    (run [.rocketClick, .tick 0, .tick 0, .tick 0, .tick 0, .tick 0, .tick 0, .tick 0,
      .tick 0, .tick 0, .tick 0] (mounted true true)).timers = [] ∧
    announced
        (run [.rocketClick, .tick 0, .tick 0, .tick 0, .tick 0, .tick 0, .tick 0, .tick 0,
          .tick 0, .tick 0, .tick 0] (mounted true true))
        (run [.rocketClick, .tick 0, .tick 0, .tick 0, .tick 0, .tick 0, .tick 0, .tick 0,
          .tick 0, .tick 0, .tick 0, .result "launch" true] (mounted true true))
      = [.text "Initiating launch sequence", .text "T minus 10"] ∧
    (run [.rocketClick, .tick 0, .tick 0, .tick 0, .tick 0, .tick 0, .tick 0, .tick 0,
      .tick 0, .tick 0, .tick 0, .result "launch" true] (mounted true true)).timers = [1] := by
  decide

/-- C7 at the failing inputs. In CountingDown(7) (rocket click, three callbacks
of interval 0) the final result "status" leaves the mission state alone but
announces "Rocket is ready for launch. Say launch to begin countdown", not
"Launch sequence in progress. T minus 7 seconds". In Launched (rocket click,
ten callbacks) it announces the same Idle sentence, not "Mission successful.
Rocket is in orbit". -/
theorem voice_status_reports_idle :
    mission (run [.rocketClick, .tick 0, .tick 0, .tick 0] (mounted true true)) = (false, 7) ∧
    mission (run [.rocketClick, .tick 0, .tick 0, .tick 0, .result "status" true]
      (mounted true true)) = (false, 7) ∧
    announced (run [.rocketClick, .tick 0, .tick 0, .tick 0] (mounted true true))
        (run [.rocketClick, .tick 0, .tick 0, .tick 0, .result "status" true]
          (mounted true true))
      = [.text "Rocket is ready for launch. Say launch to begin countdown"] ∧
    mission (run [.rocketClick, .tick 0, .tick 0, .tick 0, .tick 0, .tick 0, .tick 0,
      .tick 0, .tick 0, .tick 0, .tick 0] (mounted true true)) = (true, 0) ∧
    mission (run [.rocketClick, .tick 0, .tick 0, .tick 0, .tick 0, .tick 0, .tick 0,
      .tick 0, .tick 0, .tick 0, .tick 0, .result "status" true] (mounted true true))
      = (true, 0) ∧
    announced
        (run [.rocketClick, .tick 0, .tick 0, .tick 0, .tick 0, .tick 0, .tick 0, .tick 0,
          .tick 0, .tick 0, .tick 0] (mounted true true))
        (run [.rocketClick, .tick 0, .tick 0, .tick 0, .tick 0, .tick 0, .tick 0, .tick 0,
          .tick 0, .tick 0, .tick 0, .result "status" true] (mounted true true))
      = [.text "Rocket is ready for launch. Say launch to begin countdown"] := by
  decide

/-! ## The state pair -/

/-- C10 at the failing input: rocket click, the ten callbacks of interval 0,
then "launch" heard as a final result. The store reached has `isLaunched =
true` and `countdown = 10`. -/
theorem launched_with_countdown_running :
    mission (run
      [.rocketClick, .tick 0, .tick 0, .tick 0, .tick 0, .tick 0, .tick 0, .tick 0,
       .tick 0, .tick 0, .tick 0] (mounted true true)) = (true, 0) ∧
    mission (run
      [.rocketClick, .tick 0, .tick 0, .tick 0, .tick 0, .tick 0, .tick 0, .tick 0,
       .tick 0, .tick 0, .tick 0, .result "launch" true] (mounted true true)) = (true, 10) := by
  decide

theorem speak_countdown (x : Spoken) (s : Store) : (speak x s).countdown = s.countdown := by
  unfold speak
  split <;> rfl

theorem startCountdown_countdown (s : Store) : (startCountdown s).countdown = 10 := by
  simp [startCountdown, speak_countdown]

theorem handleVoiceCommand_countdown (r : Render) (t : String) (s : Store) :
    (handleVoiceCommand r t s).countdown = s.countdown ∨
    (handleVoiceCommand r t s).countdown = 10 ∨
    (handleVoiceCommand r t s).countdown = 0 := by
  unfold handleVoiceCommand
  simp only []
  split
  · unfold launchBranch
    split
    · exact Or.inr (Or.inl (startCountdown_countdown _))
    · split
      · exact Or.inl (by rw [speak_countdown]; rfl)
      · exact Or.inl (by rw [speak_countdown]; rfl)
  · split
    · exact Or.inr (Or.inr (by unfold resetBranch; rw [speak_countdown]; rfl))
    · split
      · unfold statusBranch
        split
        · exact Or.inl (by rw [speak_countdown]; rfl)
        · split
          · exact Or.inl (by rw [speak_countdown]; rfl)
          · exact Or.inl (by rw [speak_countdown]; rfl)
      · exact Or.inl (by unfold unknownBranch; rw [speak_countdown]; rfl)

theorem step_countdown_bounds (e : Event) (s : Store)
    (h : 0 ≤ s.countdown ∧ s.countdown ≤ 10) :
    0 ≤ (step e s).countdown ∧ (step e s).countdown ≤ 10 := by
  cases e with
  | rocketClick =>
    simp only [step, handleRocketClick]
    split
    · exact h
    · rw [startCountdown_countdown]; omega
  | resetClick =>
    simp only [step]
    split
    · exact h
    · simp [handleReset]
  | result text isFinal =>
    simp only [step]
    split
    · unfold onresult
      simp only []
      split
      · rcases handleVoiceCommand_countdown firstRender text
          { s with transcript := text } with e | e | e
        · rw [e]; exact h
        · rw [e]; omega
        · rw [e]; omega
      · exact h
    · exact h
  | tick timer =>
    simp only [step]
    split
    · unfold timerCallback
      simp only []
      split
      · simp
      · split
        · simp only [speak_countdown]
          omega
        · simp only []
          omega
    · exact h

/-- The half of the state-pair invariant that every reachable store has: the
countdown stays between 0 and 10. -/
theorem reachable_countdown_bounds (s : Store) (h : Reachable s) :
    0 ≤ s.countdown ∧ s.countdown ≤ 10 := by
  obtain ⟨a, b, es, rfl⟩ := h
  have hinit : 0 ≤ (mounted a b).countdown ∧ (mounted a b).countdown ≤ 10 := by
    cases a <;> cases b <;> decide
  generalize mounted a b = s0 at hinit
  induction es generalizing s0 with
  | nil => exact hinit
  | cons e es ih => exact ih (step e s0) (step_countdown_bounds e s0 hinit)

/-- An interim result only stores the transcript. -/
theorem onresult_interim (text : String) (s : Store) :
    onresult text false s = { s with transcript := text } := by
  simp [onresult]

/-- In Idle the first render and the current render capture the same values,
so there the callback does run the handler of the current render. -/
theorem onresult_final_idle (text : String) (s : Store)
    (h1 : s.isLaunched = false) (h2 : s.countdown = 0) :
    onresult text true s =
      handleVoiceCommand (renderOf { s with transcript := text })
        text { s with transcript := text } := by
  simp [onresult, renderOf, firstRender, h1, h2]

end SpaceLaunchSimulator
